/-
Verification of the conversation/message synchronization layer of the
analytics web UI (AgentsPage.js, DataService.js).

The JavaScript classes are shallowly embedded: the fields of `AgentsPage`
that the synchronization logic reads and writes become a Lean structure
`AgentsPageState`; each `async` method is split at its `await` point into a
synchronous "begin" part (admission control, sets the in-flight flag) and a
synchronous "complete" part (applies the fetch result to whatever the state
is at resolution time).  JavaScript `Map`s become association lists over
`String` keys.  DOM side effects are modelled only through the `rendered`
field (the message list last written into the messages panel); purely
visual effects (spinners, banners, notifications, scrolling) are outside
the model.
-/
import Mathlib

/-- Association-list lookup, modelling JavaScript `Map.prototype.get`
(`undefined` becomes `none`). -/
def mapGet {α : Type} (m : List (String × α)) (k : String) : Option α :=
  match m with
  | [] => none
  | (k', v) :: rest => if k' = k then some v else mapGet rest k

/-- Association-list update, modelling JavaScript `Map.prototype.set`:
replaces the value in place when the key is present, appends otherwise. -/
def mapSet {α : Type} (m : List (String × α)) (k : String) (v : α) :
    List (String × α) :=
  match m with
  | [] => [(k, v)]
  | (k', v') :: rest => if k' = k then (k, v) :: rest else (k', v') :: mapSet rest k v

/-- Association-list removal, modelling JavaScript `Map.prototype.delete`. -/
def mapDelete {α : Type} (m : List (String × α)) (k : String) :
    List (String × α) :=
  match m with
  | [] => []
  | (k', v') :: rest => if k' = k then mapDelete rest k else (k', v') :: mapDelete rest k

theorem mapGet_mapSet_self {α : Type} (m : List (String × α)) (k : String) (v : α) :
    mapGet (mapSet m k v) k = some v := by
  induction m with
  | nil => simp [mapGet, mapSet]
  | cons hd tl ih =>
    obtain ⟨k', v'⟩ := hd
    by_cases h : k' = k <;> simp [mapGet, mapSet, h, ih]

/-- One chat message as consumed by the synchronization layer.  The fields
inspected by `handleNewMessage` are `id`, `timestamp` and `role`; `id` is
optional because push-delivered messages may lack one (`undefined` becomes
`none`, and JavaScript `undefined === undefined` is `true`, matching
`Option` equality). `content` stands in for the rendered payload. -/
structure Message where
  id : Option String
  role : String
  timestamp : String
  content : String
deriving DecidableEq, Repr

/-- One conversation summary row (fields used by list rendering and
filtering; `lastModified` is its epoch-milliseconds timestamp, the value
of `new Date(conv.lastModified).getTime()`). -/
structure Conversation where
  id : String
  title : Option String
  project : Option String
  lastMessage : Option String
  lastModified : Int
  messageCount : Nat
deriving DecidableEq, Repr

/-- The conversation-list pagination cursor (`this.pagination`). -/
structure Pagination where
  currentPage : Nat
  limit : Nat
  hasMore : Bool
  isLoading : Bool
deriving DecidableEq, Repr

/-- The message-list pagination cursor (`this.messagesPagination`). -/
structure MessagesPagination where
  currentPage : Nat
  limit : Nat
  hasMore : Bool
  isLoading : Bool
  conversationId : Option String
deriving DecidableEq, Repr

/-- The mutable fields of `AgentsPage` that the synchronization logic
touches.  `rendered` models the message list currently shown in the
messages panel (`some` = a message list was rendered by
`renderCachedMessages`, `none` = a non-list display such as the initial
placeholder, the error box, or the empty state). -/
structure AgentsPageState where
  selectedConversationId : Option String
  pagination : Pagination
  messagesPagination : MessagesPagination
  loadedConversations : List Conversation
  loadedMessages : List (String × List Message)
  rendered : Option (List Message)
deriving DecidableEq, Repr

/-- The duplicate test of `handleNewMessage`:
`msg.id === message.id || (msg.timestamp === message.timestamp && msg.role === message.role)`. -/
def messageMatches (msg incoming : Message) : Bool :=
  decide (msg.id = incoming.id) ||
    (decide (msg.timestamp = incoming.timestamp) && decide (msg.role = incoming.role))

/-- Messages cached for a conversation, `this.loadedMessages.get(id) || []`. -/
def getMsgs (st : AgentsPageState) (conversationId : String) : List Message :=
  (mapGet st.loadedMessages conversationId).getD []

/-- AgentsPage.handleNewMessage: ignores the push event unless the
conversation is the selected one; otherwise appends the message to the
cached list, and re-renders, only when no cached message matches it. -/
def handleNewMessage (conversationId : String) (message : Message)
    (st : AgentsPageState) : AgentsPageState :=
  if st.selectedConversationId ≠ some conversationId then st
  else
    let existingMessages := getMsgs st conversationId
    let messageExists := existingMessages.any (fun msg => messageMatches msg message)
    if messageExists then st
    else
      let updatedMessages := existingMessages ++ [message]
      { st with
          loadedMessages := mapSet st.loadedMessages conversationId updatedMessages,
          rendered := some updatedMessages }

/-- Pagination block of the `/api/conversations` response. -/
structure ConvPaginationInfo where
  page : Nat
  hasMore : Bool
  totalCount : Nat
deriving DecidableEq, Repr

/-- Response of `getConversationsPaginated` (`/api/conversations?page=..&limit=..`). -/
structure ConversationsResponse where
  conversations : List Conversation
  pagination : ConvPaginationInfo
deriving DecidableEq, Repr

/-- Optional pagination block of a `/api/conversations/:id/messages` response. -/
structure MsgPaginationInfo where
  page : Nat
  hasMore : Bool
deriving DecidableEq, Repr

/-- Response of a message-page fetch.  `messages` is `none` when the
response body lacks a truthy `messages` field (the
`messagesData && messagesData.messages` guard fails); `pagination` is
optional — the server may answer without pagination metadata. -/
structure MessagesResponse where
  messages : Option (List Message)
  pagination : Option MsgPaginationInfo
deriving DecidableEq, Repr

/-- Synchronous part of `loadMoreConversations` before its `await`: the
admission gate (`if (this.pagination.isLoading || !this.pagination.hasMore) return;`)
followed by `this.pagination.isLoading = true`.  Returns the new state and
whether a fetch for `(currentPage, limit)` was actually issued. -/
def loadMoreConversationsBegin (st : AgentsPageState) : AgentsPageState × Bool :=
  if st.pagination.isLoading || !st.pagination.hasMore then (st, false)
  else ({ st with pagination := { st.pagination with isLoading := true } }, true)

/-- Part of `loadMoreConversations` after its `await` resolves, applied to
the state at resolution time.  On success: `hasMore` and `currentPage`
come from the server pagination block (`page + 1`), the page's items are
pushed onto `loadedConversations`, and the `finally` clears `isLoading`.
On failure: only the `finally` runs (an error banner is raised through the
state service, outside this model); cursor fields and loaded data keep
their values. -/
def loadMoreConversationsComplete (st : AgentsPageState)
    (result : Except Unit ConversationsResponse) : AgentsPageState :=
  match result with
  | .error _ => { st with pagination := { st.pagination with isLoading := false } }
  | .ok resp =>
      let p := { st.pagination with
                   hasMore := resp.pagination.hasMore,
                   currentPage := resp.pagination.page + 1 }
      { st with
          pagination := { p with isLoading := false },
          loadedConversations := st.loadedConversations ++ resp.conversations }

/-- Synchronous part of `loadMoreMessages` before its `await`: the
concurrent-load gate, then the subject check
(`if (this.messagesPagination.conversationId !== conversationId) return;`),
then `this.messagesPagination.isLoading = true`.  The DOM presence check on
the messages panel is not modelled (the panel exists whenever the page is
mounted).  Returns the new state and whether a fetch was issued. -/
def loadMoreMessagesBegin (conversationId : String) (st : AgentsPageState) :
    AgentsPageState × Bool :=
  if st.messagesPagination.isLoading || !st.messagesPagination.hasMore then (st, false)
  else if st.messagesPagination.conversationId ≠ some conversationId then (st, false)
  else ({ st with messagesPagination := { st.messagesPagination with isLoading := true } },
        true)

/-- Part of `loadMoreMessages` after its `await` resolves, applied to the
state at resolution time; `conversationId` and `isInitialLoad` are the
values captured when the fetch was issued.  Note the cursor writes go to
`this.messagesPagination` as it is NOW — the source re-reads the field, so
a cursor replaced while the fetch was in flight is the one mutated.
On a response carrying `messages`: the cursor takes the server pagination
block when present (`hasMore`, `page + 1`) and otherwise falls back to
`hasMore := false`, `currentPage := 1`; the cache entry for
`conversationId` is replaced (initial load) or prepended to (older page),
and the combined list is rendered.  On a missing `messages` field or a
thrown fetch, an initial load replaces the panel with a non-list display;
the `finally` always clears `isLoading`. -/
def loadMoreMessagesComplete (conversationId : String) (isInitialLoad : Bool)
    (st : AgentsPageState) (result : Except Unit MessagesResponse) : AgentsPageState :=
  match result with
  | .error _ =>
      let st := if isInitialLoad then { st with rendered := none } else st
      { st with messagesPagination := { st.messagesPagination with isLoading := false } }
  | .ok resp =>
      match resp.messages with
      | none =>
          let st := if isInitialLoad then { st with rendered := none } else st
          { st with messagesPagination := { st.messagesPagination with isLoading := false } }
      | some msgs =>
          let mp := match resp.pagination with
            | some p => { st.messagesPagination with
                            hasMore := p.hasMore, currentPage := p.page + 1 }
            | none => { st.messagesPagination with hasMore := false, currentPage := 1 }
          let existingMessages := getMsgs st conversationId
          let combined := if isInitialLoad then msgs else msgs ++ existingMessages
          { st with
              messagesPagination := { mp with isLoading := false },
              loadedMessages := mapSet st.loadedMessages conversationId combined,
              rendered := some combined }

/-- AgentsPage.loadConversationMessages, synchronous part: reset the
message cursor for the new conversation and drop its cached messages.
The method then issues the initial page load (`loadMoreMessages(id, true)`). -/
def loadConversationMessagesReset (conversationId : String)
    (st : AgentsPageState) : AgentsPageState :=
  { st with
      messagesPagination :=
        { currentPage := 0, limit := 10, hasMore := true, isLoading := false,
          conversationId := some conversationId },
      loadedMessages := mapDelete st.loadedMessages conversationId }

/-- AgentsPage.selectConversation up to the first suspension point: record
the selection, reset the message cursor and cache
(`loadConversationMessages`), then run the initial `loadMoreMessages`
admission; the fetch, when issued, resolves later via
`loadMoreMessagesComplete`. -/
def selectConversationBegin (conversationId : String) (st : AgentsPageState) :
    AgentsPageState × Bool :=
  let st := { st with selectedConversationId := some conversationId }
  let st := loadConversationMessagesReset conversationId st
  loadMoreMessagesBegin conversationId st

/-- One entry of the DataService client cache. -/
structure CacheEntry where
  data : String
  timestamp : Int
deriving DecidableEq, Repr

/-- The fetch attempt inside DataService.cachedFetch (the `try`/`catch`
after the freshness check): a successful fetch caches and returns the
fresh data; a failed fetch (thrown, or non-OK status raised as an error)
falls back to the cached entry when one exists — however stale — and
re-raises only when there is none. -/
def cachedFetchAttempt (cache : List (String × CacheEntry)) (cacheKey : String)
    (now : Int) (fetchResult : Except String String) :
    Except String (String × List (String × CacheEntry)) :=
  match fetchResult with
  | .ok data => .ok (data, mapSet cache cacheKey { data := data, timestamp := now })
  | .error e =>
      match mapGet cache cacheKey with
      | some cached => .ok (cached.data, cache)
      | none => .error e

/-- DataService.cachedFetch over the client cache.  `cacheKey` is the
endpoint/options pair the source concatenates; `cacheDuration` is
`options.cacheDuration || 30000`; `fetchResult` is the outcome the network
would deliver if consulted.  A cached entry younger than `cacheDuration`
short-circuits the network entirely. -/
def cachedFetch (cache : List (String × CacheEntry)) (cacheKey : String)
    (now : Int) (cacheDuration : Int) (fetchResult : Except String String) :
    Except String (String × List (String × CacheEntry)) :=
  match mapGet cache cacheKey with
  | some cached =>
      if now - cached.timestamp < cacheDuration then .ok (cached.data, cache)
      else cachedFetchAttempt cache cacheKey now fetchResult
  | none => cachedFetchAttempt cache cacheKey now fetchResult

/-- Character-list version of "hay starts with needle". -/
def startsWithChars (hay needle : List Char) : Bool :=
  match needle, hay with
  | [], _ => true
  | _ :: _, [] => false
  | n :: ns, h :: hs => decide (n = h) && startsWithChars hs ns

/-- Character-list version of substring containment. -/
def containsChars (hay needle : List Char) : Bool :=
  match hay with
  | [] => startsWithChars [] needle
  | c :: hs => startsWithChars (c :: hs) needle || containsChars hs needle

/-- JavaScript `hay.includes(needle)` on strings: substring containment
(the empty needle is contained in everything). -/
def strIncludes (hay needle : String) : Bool :=
  containsChars hay.toList needle.toList

/-- The filter controls of the page (`this.filters`). -/
structure Filters where
  status : String
  timeRange : String
  search : String
deriving DecidableEq, Repr

/-- AgentsPage.getTimeRangeMs: the lookup table from the time-range
selector value to milliseconds, `0` for anything unrecognized. -/
def getTimeRangeMs (range : String) : Int :=
  if range = "1h" then 60 * 60 * 1000
  else if range = "24h" then 24 * 60 * 60 * 1000
  else if range = "7d" then 7 * 24 * 60 * 60 * 1000
  else if range = "30d" then 30 * 24 * 60 * 60 * 1000
  else 0

/-- The detailed states AgentsPage.getStateCategory classifies as active. -/
def activeStatesList : List String :=
  ["Claude Code working...", "Awaiting user input...", "User typing...",
   "Awaiting response...", "Recently active"]

/-- The detailed states AgentsPage.getStateCategory lists as inactive. -/
def inactiveStatesList : List String :=
  ["Idle", "Inactive", "Old", "unknown"]

/-- AgentsPage.getStateCategory: classify a detailed state string as
"active" or "inactive"; anything not in either table defaults to
"inactive". -/
def getStateCategory (state : String) : String :=
  if activeStatesList.contains state then "active"
  else if inactiveStatesList.contains state then "inactive"
  else "inactive"

/-- AgentsPage.filterConversations: the three sequential filter passes over
the conversation list — status (via `getStateCategory` of the
conversation's state, `"unknown"` when the states mapping lacks its id),
time range (skipped when the range resolves to `0` ms), and
case-insensitive substring search over title, project and last message
(skipped when the search text is empty). `now` is `Date.now()`. -/
def filterConversations (filters : Filters) (now : Int)
    (conversations : List Conversation) (states : List (String × String)) :
    List Conversation :=
  let filtered := conversations
  let filtered :=
    if filters.status ≠ "all" then
      filtered.filter (fun conv =>
        getStateCategory ((mapGet states conv.id).getD "unknown") = filters.status)
    else filtered
  let timeRange := getTimeRangeMs filters.timeRange
  let filtered :=
    if timeRange > 0 then
      filtered.filter (fun conv => decide (conv.lastModified ≥ now - timeRange))
    else filtered
  let filtered :=
    if filters.search ≠ "" then
      let searchLower := filters.search.toLower
      filtered.filter (fun conv =>
        strIncludes (conv.title.getD "").toLower searchLower ||
        strIncludes (conv.project.getD "").toLower searchLower ||
        strIncludes (conv.lastMessage.getD "").toLower searchLower)
    else filtered
  filtered

/-- Modelled from the spec wording of the filtered view, for comparison
with `filterConversations`: a conversation is kept exactly when it passes
all three predicates — the status predicate (vacuous for status "all",
otherwise the derived active/inactive category of its state, defaulting to
"unknown" when absent and to the inactive category for unrecognized
states, equals the requested one), the time predicate (vacuous for a zero
range, otherwise `lastModified ≥ now - timeRangeMs`), and the search
predicate (vacuous for empty search, otherwise a case-insensitive
substring match against title, project, or lastMessage). -/
def specKeepsConversation (filters : Filters) (now : Int)
    (states : List (String × String)) (conv : Conversation) : Bool :=
  (decide (filters.status = "all") ||
     decide (getStateCategory ((mapGet states conv.id).getD "unknown") = filters.status)) &&
  (!decide (0 < getTimeRangeMs filters.timeRange) ||
     decide (conv.lastModified ≥ now - getTimeRangeMs filters.timeRange)) &&
  (decide (filters.search = "") ||
     (strIncludes (conv.title.getD "").toLower filters.search.toLower ||
      strIncludes (conv.project.getD "").toLower filters.search.toLower ||
      strIncludes (conv.lastMessage.getD "").toLower filters.search.toLower))

/-- A fresh page state, as set up by the constructor of AgentsPage. -/
def initialState : AgentsPageState :=
  { selectedConversationId := none,
    pagination := { currentPage := 0, limit := 10, hasMore := true, isLoading := false },
    messagesPagination :=
      { currentPage := 0, limit := 10, hasMore := true, isLoading := false,
        conversationId := none },
    loadedConversations := [],
    loadedMessages := [],
    rendered := none }

/-- A concrete message used by witnesses and scenarios. -/
def msgA : Message :=
  { id := some "m1", role := "assistant", timestamp := "2026-01-01T00:00:00Z",
    content := "hello" }

/-- State after selecting conversation A on a fresh page: A's initial
message fetch is in flight. -/
def stSelA : AgentsPageState := (selectConversationBegin "A" initialState).1

/-- State after the user switches to conversation B while A's fetch is
still in flight: B's initial message fetch is now in flight too. -/
def stSelB : AgentsPageState := (selectConversationBegin "B" stSelA).1

/-- The response of A's superseded fetch. -/
def respA : MessagesResponse :=
  { messages := some [msgA], pagination := some { page := 0, hasMore := true } }

/-- State after A's stale fetch resolves while B is selected: the source
applies the result with no subject re-check. -/
def stStale : AgentsPageState := loadMoreMessagesComplete "A" true stSelB (.ok respA)

/-- C1: the new-message handler appends the incoming push message to the
conversation's cached list only if no cached message matches it by `id` or
by the pair `(timestamp, role)`; with the conversation selected, a fresh
message grows the cache by exactly one element and delivering the same
message again is a no-op (size+1 then size+0). -/
theorem handleNewMessage_noop_of_match (st : AgentsPageState) (cid : String)
    (msg : Message)
    (h : ((getMsgs st cid).any fun m => messageMatches m msg) = true) :
    handleNewMessage cid msg st = st := by
  simp only [handleNewMessage]
  by_cases hsel : st.selectedConversationId ≠ some cid
  · rw [if_pos hsel]
  · rw [if_neg hsel, if_pos h]

theorem handleNewMessage_append_of_no_match (st : AgentsPageState) (cid : String)
    (msg : Message) (hsel : st.selectedConversationId = some cid)
    (h : ((getMsgs st cid).any fun m => messageMatches m msg) = false) :
    handleNewMessage cid msg st =
      { st with
          loadedMessages := mapSet st.loadedMessages cid (getMsgs st cid ++ [msg]),
          rendered := some (getMsgs st cid ++ [msg]) } := by
  simp only [handleNewMessage]
  rw [if_neg (by simp [hsel]), if_neg (by simp [h])]

theorem handleNewMessage_appendUnique (st : AgentsPageState) (cid : String)
    (msg : Message) (hsel : st.selectedConversationId = some cid) :
    (((getMsgs st cid).any fun m => messageMatches m msg) = true →
      handleNewMessage cid msg st = st) ∧
    (((getMsgs st cid).any fun m => messageMatches m msg) = false →
      getMsgs (handleNewMessage cid msg st) cid = getMsgs st cid ++ [msg]) ∧
    handleNewMessage cid msg (handleNewMessage cid msg st) =
      handleNewMessage cid msg st := by
  refine ⟨handleNewMessage_noop_of_match st cid msg, ?_, ?_⟩
  · intro hmatch
    rw [handleNewMessage_append_of_no_match st cid msg hsel hmatch]
    simp [getMsgs, mapGet_mapSet_self]
  · by_cases hmatch : ((getMsgs st cid).any fun m => messageMatches m msg) = true
    · rw [handleNewMessage_noop_of_match st cid msg hmatch]
      exact handleNewMessage_noop_of_match st cid msg hmatch
    · have hm : ((getMsgs st cid).any fun m => messageMatches m msg) = false := by
        rwa [Bool.not_eq_true] at hmatch
      rw [handleNewMessage_append_of_no_match st cid msg hsel hm]
      apply handleNewMessage_noop_of_match
      simp [getMsgs, mapGet_mapSet_self, messageMatches]

/-- Witness for C1 at a fresh state with conversation A selected. -/
theorem handleNewMessage_appendUnique_witness :
    ({ initialState with selectedConversationId := some "A"
       : AgentsPageState }).selectedConversationId = some "A" ∧
    (((getMsgs { initialState with selectedConversationId := some "A" } "A").any
        (fun m => messageMatches m msgA) = true →
      handleNewMessage "A" msgA { initialState with selectedConversationId := some "A" } =
        { initialState with selectedConversationId := some "A" }) ∧
     ((getMsgs { initialState with selectedConversationId := some "A" } "A").any
        (fun m => messageMatches m msgA) = false →
      getMsgs (handleNewMessage "A" msgA
          { initialState with selectedConversationId := some "A" }) "A" =
        getMsgs { initialState with selectedConversationId := some "A" } "A" ++ [msgA]) ∧
     handleNewMessage "A" msgA (handleNewMessage "A" msgA
        { initialState with selectedConversationId := some "A" }) =
      handleNewMessage "A" msgA { initialState with selectedConversationId := some "A" }) :=
  ⟨rfl, handleNewMessage_appendUnique _ "A" msgA rfl⟩

/-- C2 fails on the code: the "subject still active" check of
`loadMoreMessages` runs only before the fetch is issued, never after the
`await` resolves.  Concretely: select conversation A (fetch issued), then
select conversation B before A's fetch resolves (B's fetch issued); when
A's stale result arrives it is applied anyway — A's messages are cached
and rendered while B is selected, and the shared message cursor is
overwritten (`currentPage` 0 → 1, `isLoading` cleared while B's fetch is
still in flight). -/
theorem staleMessageFetch_applied_counterexample :
    (selectConversationBegin "A" initialState).2 = true ∧
    (selectConversationBegin "B" stSelA).2 = true ∧
    stSelB.selectedConversationId = some "B" ∧
    stSelB.messagesPagination.isLoading = true ∧
    mapGet stSelB.loadedMessages "A" = none ∧
    stSelB.rendered = none ∧
    stStale.messagesPagination.currentPage = 1 ∧
    stSelB.messagesPagination.currentPage = 0 ∧
    mapGet stStale.loadedMessages "A" = some [msgA] ∧
    stStale.rendered = some [msgA] ∧
    stStale.messagesPagination.isLoading = false := by
  decide

/-- C2 (amended): the subject check is enforced only at admission — a
message-page load request whose conversation differs from the message
cursor's current subject is rejected before any fetch is issued, with no
state change. -/
theorem loadMoreMessages_subject_guard (st : AgentsPageState) (cid : String)
    (h : st.messagesPagination.conversationId ≠ some cid) :
    loadMoreMessagesBegin cid st = (st, false) := by
  simp only [loadMoreMessagesBegin]
  by_cases h1 : st.messagesPagination.isLoading || !st.messagesPagination.hasMore
  · rw [if_pos h1]
  · rw [if_neg h1, if_pos h]

/-- Witness for the amended C2: with B's cursor active, a load request for
conversation A is rejected. -/
theorem loadMoreMessages_subject_guard_witness :
    stSelB.messagesPagination.conversationId ≠ some "A" ∧
    loadMoreMessagesBegin "A" stSelB = (stSelB, false) :=
  ⟨by decide, loadMoreMessages_subject_guard stSelB "A" (by decide)⟩

/-- C3: a push `new_message` event for a conversation other than the
selected one is ignored entirely — the handler returns with the page state
(in particular every conversation's cached message list) unchanged. -/
theorem handleNewMessage_frame (st : AgentsPageState) (cid : String)
    (msg : Message) (h : st.selectedConversationId ≠ some cid) :
    handleNewMessage cid msg st = st := by
  simp only [handleNewMessage]
  rw [if_pos h]

/-- Witness for C3: with conversation A selected and loaded, a push for
conversation B leaves the state — B's cache absent, A's messages — as it
was. -/
theorem handleNewMessage_frame_witness :
    ({ initialState with
         selectedConversationId := some "A",
         loadedMessages := [("A", [msgA])] : AgentsPageState }).selectedConversationId ≠
      some "B" ∧
    handleNewMessage "B" msgA
        { initialState with
            selectedConversationId := some "A",
            loadedMessages := [("A", [msgA])] } =
      { initialState with
          selectedConversationId := some "A",
          loadedMessages := [("A", [msgA])] } :=
  ⟨by decide, handleNewMessage_frame _ "B" msgA (by decide)⟩

/-- A state with both cursors marked in-flight, for the C4 witness. -/
def stBusy : AgentsPageState :=
  { initialState with
      pagination := { initialState.pagination with isLoading := true },
      messagesPagination :=
        { initialState.messagesPagination with
            isLoading := true, conversationId := some "A" } }

/-- C4: a load attempt on either pagination cursor while `isLoading` is
true — regardless of `hasMore` — or while `hasMore` is false is a no-op:
no fetch is issued and the state is unchanged, so the gate admits at most
one in-flight fetch per cursor. -/
theorem paginationCursor_admission_gate (st : AgentsPageState) (cid : String) :
    ((st.pagination.isLoading = true ∨ st.pagination.hasMore = false) →
      loadMoreConversationsBegin st = (st, false)) ∧
    ((st.messagesPagination.isLoading = true ∨ st.messagesPagination.hasMore = false) →
      loadMoreMessagesBegin cid st = (st, false)) := by
  constructor
  · intro hc
    have h1 : (st.pagination.isLoading || !st.pagination.hasMore) = true := by
      rcases hc with h | h <;> simp [h]
    simp only [loadMoreConversationsBegin]
    rw [if_pos h1]
  · intro hc
    have h1 : (st.messagesPagination.isLoading || !st.messagesPagination.hasMore) = true := by
      rcases hc with h | h <;> simp [h]
    simp only [loadMoreMessagesBegin]
    rw [if_pos h1]

/-- Witness for C4 at a state whose cursors are both in flight with
`hasMore` still true. -/
theorem paginationCursor_admission_gate_witness :
    (stBusy.pagination.isLoading = true ∨ stBusy.pagination.hasMore = false) ∧
    (stBusy.messagesPagination.isLoading = true ∨ stBusy.messagesPagination.hasMore = false) ∧
    stBusy.pagination.hasMore = true ∧
    loadMoreConversationsBegin stBusy = (stBusy, false) ∧
    loadMoreMessagesBegin "A" stBusy = (stBusy, false) :=
  ⟨Or.inl (by decide), Or.inl (by decide), by decide,
   (paginationCursor_admission_gate stBusy "A").1 (Or.inl (by decide)),
   (paginationCursor_admission_gate stBusy "A").2 (Or.inl (by decide))⟩

/-- C5: a failed page load rolls the cursor back — `isLoading` returns to
false while `page`, `hasMore` and the already-loaded
conversations/messages are untouched — and a subsequent retry with
identical arguments is admitted and, on success, advances the page by 1
(the code takes `page + 1` from the echoed server page). -/
theorem pageLoad_failure_rollback (st : AgentsPageState) (cid : String)
    (isInitialLoad : Bool) (resp : ConversationsResponse)
    (hHasMore : st.pagination.hasMore = true)
    (hPage : resp.pagination.page = st.pagination.currentPage) :
    loadMoreConversationsComplete st (.error ()) =
      { st with pagination := { st.pagination with isLoading := false } } ∧
    (loadMoreMessagesComplete cid isInitialLoad st (.error ())).messagesPagination =
      { st.messagesPagination with isLoading := false } ∧
    (loadMoreMessagesComplete cid isInitialLoad st (.error ())).loadedMessages =
      st.loadedMessages ∧
    (loadMoreConversationsComplete st (.error ())).loadedConversations =
      st.loadedConversations ∧
    (loadMoreConversationsBegin (loadMoreConversationsComplete st (.error ()))).2 = true ∧
    (loadMoreConversationsComplete
        (loadMoreConversationsBegin (loadMoreConversationsComplete st (.error ()))).1
        (.ok resp)).pagination.currentPage = st.pagination.currentPage + 1 := by
  refine ⟨rfl, ?_, ?_, rfl, ?_, ?_⟩
  · cases isInitialLoad <;> rfl
  · cases isInitialLoad <;> rfl
  · simp [loadMoreConversationsBegin, loadMoreConversationsComplete, hHasMore]
  · simp [loadMoreConversationsBegin, loadMoreConversationsComplete, hHasMore, hPage]

/-- A one-element page response echoing page 0, for the C5 witness. -/
def retryResponse : ConversationsResponse :=
  { conversations :=
      [{ id := "c1", title := some "fix bug in parser", project := some "demo",
         lastMessage := some "done", lastModified := 1000, messageCount := 2 }],
    pagination := { page := 0, hasMore := true, totalCount := 1 } }

/-- Witness for C5 on a fresh page: the failed initial conversation load is
rolled back and the retry succeeds, advancing the page from 0 to 1. -/
theorem pageLoad_failure_rollback_witness :
    initialState.pagination.hasMore = true ∧
    retryResponse.pagination.page = initialState.pagination.currentPage ∧
    (loadMoreConversationsComplete initialState (.error ()) =
      { initialState with
          pagination := { initialState.pagination with isLoading := false } } ∧
     (loadMoreMessagesComplete "A" true initialState (.error ())).messagesPagination =
      { initialState.messagesPagination with isLoading := false } ∧
     (loadMoreMessagesComplete "A" true initialState (.error ())).loadedMessages =
      initialState.loadedMessages ∧
     (loadMoreConversationsComplete initialState (.error ())).loadedConversations =
      initialState.loadedConversations ∧
     (loadMoreConversationsBegin (loadMoreConversationsComplete initialState (.error ()))).2 =
      true ∧
     (loadMoreConversationsComplete
        (loadMoreConversationsBegin
          (loadMoreConversationsComplete initialState (.error ()))).1
        (.ok retryResponse)).pagination.currentPage =
      initialState.pagination.currentPage + 1) :=
  ⟨by decide, by decide,
   pageLoad_failure_rollback initialState "A" true retryResponse (by decide) (by decide)⟩

/-- A synthetic conversation used by the C6 scenario pages. -/
def mkConv (i : Nat) : Conversation :=
  { id := toString i, title := none, project := none, lastMessage := none,
    lastModified := 0, messageCount := 0 }

/-- Server response for conversation page 0: 10 items, more available. -/
def page0Response : ConversationsResponse :=
  { conversations := (List.range 10).map mkConv,
    pagination := { page := 0, hasMore := true, totalCount := 17 } }

/-- Server response for conversation page 1: 7 items, exhausted. -/
def page1Response : ConversationsResponse :=
  { conversations := (List.range 7).map (fun i => mkConv (10 + i)),
    pagination := { page := 1, hasMore := false, totalCount := 17 } }

/-- State after loading conversation page 0 on a fresh page. -/
def afterPage0 : AgentsPageState :=
  loadMoreConversationsComplete (loadMoreConversationsBegin initialState).1
    (.ok page0Response)

/-- State after additionally loading conversation page 1. -/
def afterPage1 : AgentsPageState :=
  loadMoreConversationsComplete (loadMoreConversationsBegin afterPage0).1
    (.ok page1Response)

/-- C6: a successful conversation-page load appends the returned items to
the accumulated list, takes `hasMore` from the server response, clears
`isLoading`, and moves the cursor to the server page plus one — an advance
by one whenever the server echoes the requested page; loading pages 0
(10 items, more) and 1 (7 items, done) on a fresh page accumulates 17
conversations with the cursor at page 2. -/
theorem loadMoreConversations_success (st : AgentsPageState)
    (resp : ConversationsResponse)
    (hPage : resp.pagination.page = st.pagination.currentPage) :
    loadMoreConversationsComplete st (.ok resp) =
      { st with
          pagination :=
            { currentPage := resp.pagination.page + 1,
              limit := st.pagination.limit,
              hasMore := resp.pagination.hasMore,
              isLoading := false },
          loadedConversations := st.loadedConversations ++ resp.conversations } ∧
    (loadMoreConversationsComplete st (.ok resp)).pagination.currentPage =
      st.pagination.currentPage + 1 ∧
    (loadMoreConversationsBegin initialState).2 = true ∧
    afterPage0.loadedConversations.length = 10 ∧
    (loadMoreConversationsBegin afterPage0).2 = true ∧
    afterPage1.loadedConversations.length = 17 ∧
    afterPage1.pagination.currentPage = 2 ∧
    afterPage1.pagination.hasMore = false ∧
    afterPage1.pagination.isLoading = false := by
  refine ⟨rfl, ?_, by decide, by decide, by decide, by decide, by decide, by decide,
    by decide⟩
  simp [loadMoreConversationsComplete, hPage]

/-- Witness for C6 at the concrete page-0 load of the scenario. -/
theorem loadMoreConversations_success_witness :
    page0Response.pagination.page = initialState.pagination.currentPage ∧
    (loadMoreConversationsComplete initialState (.ok page0Response) =
      { initialState with
          pagination :=
            { currentPage := page0Response.pagination.page + 1,
              limit := initialState.pagination.limit,
              hasMore := page0Response.pagination.hasMore,
              isLoading := false },
          loadedConversations :=
            initialState.loadedConversations ++ page0Response.conversations } ∧
     (loadMoreConversationsComplete initialState (.ok page0Response)).pagination.currentPage =
      initialState.pagination.currentPage + 1 ∧
     (loadMoreConversationsBegin initialState).2 = true ∧
     afterPage0.loadedConversations.length = 10 ∧
     (loadMoreConversationsBegin afterPage0).2 = true ∧
     afterPage1.loadedConversations.length = 17 ∧
     afterPage1.pagination.currentPage = 2 ∧
     afterPage1.pagination.hasMore = false ∧
     afterPage1.pagination.isLoading = false) :=
  ⟨by decide, loadMoreConversations_success initialState page0Response (by decide)⟩

/-- C8: an older (non-initial) message-page merge leaves the conversation's
cached sequence equal to the fetched older messages followed by the
previously cached ones, with no re-sorting — the merge is literally the
list append `older ++ original`. -/
theorem loadMoreMessages_prepend_merge (st : AgentsPageState) (cid : String)
    (msgs : List Message) (pag : Option MsgPaginationInfo) :
    mapGet (loadMoreMessagesComplete cid false st
        (.ok { messages := some msgs, pagination := pag })).loadedMessages cid =
      some (msgs ++ (mapGet st.loadedMessages cid).getD []) := by
  cases pag <;> exact mapGet_mapSet_self _ _ _

/-- C9: a successful message-page fetch whose response lacks pagination
metadata marks the conversation fully loaded — `hasMore` becomes false —
and any subsequent load attempt on the message cursor is a no-op. -/
theorem loadMoreMessages_missing_pagination_terminal (st : AgentsPageState)
    (cid cid' : String) (isInitialLoad : Bool) (msgs : List Message) :
    (loadMoreMessagesComplete cid isInitialLoad st
        (.ok { messages := some msgs, pagination := none })).messagesPagination.hasMore =
      false ∧
    loadMoreMessagesBegin cid'
        (loadMoreMessagesComplete cid isInitialLoad st
          (.ok { messages := some msgs, pagination := none })) =
      (loadMoreMessagesComplete cid isInitialLoad st
        (.ok { messages := some msgs, pagination := none }), false) :=
  ⟨rfl, rfl⟩

/-- Filter setting used by the C7 concrete instance. -/
def activeFilters : Filters := { status := "active", timeRange := "7d", search := "" }

/-- A conversation whose state will be `Idle`. -/
def convIdle : Conversation :=
  { id := "i1", title := some "idle chat", project := some "proj",
    lastMessage := some "bye", lastModified := 999000, messageCount := 1 }

/-- A conversation whose state will be `Claude Code working...`. -/
def convWorking : Conversation :=
  { id := "w1", title := some "busy chat", project := some "proj",
    lastMessage := some "running", lastModified := 999500, messageCount := 3 }

/-- The states mapping for the C7 concrete instance. -/
def statesW : List (String × String) :=
  [("i1", "Idle"), ("w1", "Claude Code working...")]

/-- C7: the filtered view keeps exactly the conversations passing all three
predicates — status (via the active/inactive classification of the
conversation's state, defaulting to `unknown` when absent and to inactive
for unrecognized states), positive time range (`lastModified ≥ now -
timeRangeMs`; a zero range filters nothing), and case-insensitive
substring search over title, project and last message (empty search
matches all) — preserving relative order; with status `active`, an `Idle`
conversation is excluded and a `Claude Code working...` one is included. -/
theorem filterConversations_spec (filters : Filters) (now : Int)
    (conversations : List Conversation) (states : List (String × String)) :
    filterConversations filters now conversations states =
      conversations.filter (fun conv => specKeepsConversation filters now states conv) ∧
    (filterConversations filters now conversations states).Sublist conversations ∧
    getStateCategory "Idle" = "inactive" ∧
    getStateCategory "Claude Code working..." = "active" ∧
    filterConversations activeFilters 1000000 [convIdle, convWorking] statesW =
      [convWorking] := by
  have hmain : ∀ (f : Filters) (n : Int) (cs : List Conversation)
      (sts : List (String × String)),
      filterConversations f n cs sts =
        cs.filter (fun conv => specKeepsConversation f n sts conv) := by
    intro f n cs sts
    simp only [filterConversations, specKeepsConversation]
    by_cases hs : f.status = "all" <;>
      by_cases ht : 0 < getTimeRangeMs f.timeRange <;>
        by_cases hq : f.search = "" <;>
          simp [hs, ht, hq, List.filter_filter, Bool.and_assoc, Bool.and_comm,
            Bool.and_left_comm]
  refine ⟨hmain filters now conversations states, ?_, by decide, by decide, ?_⟩
  · rw [hmain]
    exact List.filter_sublist conversations
  · decide

/-- C10: when the network fetch for an endpoint fails and a cached entry
for that endpoint exists, `cachedFetch` answers with the cached data —
even past its freshness window — without modifying the cache; the error
propagates only when no cached entry exists. -/
theorem cachedFetch_stale_fallback (cache : List (String × CacheEntry))
    (cacheKey : String) (now cacheDuration : Int) (e : String) :
    (∀ c, mapGet cache cacheKey = some c →
      cachedFetch cache cacheKey now cacheDuration (.error e) = .ok (c.data, cache)) ∧
    (mapGet cache cacheKey = none →
      cachedFetch cache cacheKey now cacheDuration (.error e) = .error e) := by
  constructor
  · intro c hc
    simp only [cachedFetch, hc]
    by_cases h : now - c.timestamp < cacheDuration
    · rw [if_pos h]
    · rw [if_neg h]
      simp only [cachedFetchAttempt, hc]
  · intro hc
    simp only [cachedFetch, hc, cachedFetchAttempt]

/-- A cached entry far older than the freshness window, for the C10
witness. -/
def staleCache : List (String × CacheEntry) :=
  [("/api/data_\x7b\x7d", { data := "cached-body", timestamp := 0 })]

/-- Witness for C10: with a 30 s freshness window and a 100 s old entry,
a failed fetch still answers from the cache; with an empty cache the error
propagates. -/
theorem cachedFetch_stale_fallback_witness :
    mapGet staleCache "/api/data_\x7b\x7d" =
      some { data := "cached-body", timestamp := 0 } ∧
    ¬ ((100000 : Int) - 0 < 30000) ∧
    cachedFetch staleCache "/api/data_\x7b\x7d" 100000 30000 (.error "boom") =
      .ok ("cached-body", staleCache) ∧
    mapGet ([] : List (String × CacheEntry)) "/api/data_\x7b\x7d" = none ∧
    cachedFetch ([] : List (String × CacheEntry)) "/api/data_\x7b\x7d" 100000 30000
        (.error "boom") = .error "boom" :=
  ⟨by decide, by decide,
   (cachedFetch_stale_fallback staleCache "/api/data_\x7b\x7d" 100000 30000 "boom").1
     { data := "cached-body", timestamp := 0 } (by decide),
   by decide,
   (cachedFetch_stale_fallback [] "/api/data_\x7b\x7d" 100000 30000 "boom").2 (by decide)⟩
